import Mathlib

/-!
Verification of the `gotest` CLI bootstrap (`go/main/main.go`).

The program is a single sequential `run` function plus a helper
`getDataPath`.  All interaction with the outside world (filesystem,
key-value config store, network update check, CLI framework) happens
through library calls; we model each such call by an oracle field of an
environment record holding the result the call would return.  `run`
itself is embedded as a pure function from the environment to the pair
of (observable event trace, process exit code), mirroring the Go control
flow statement by statement.

Go `time.Time` values (as produced by `time.Now()` and consumed by
`time.Parse(time.RFC3339, ...)` / `Format(time.RFC3339)`) are modelled
concretely at second granularity by the `GoTime` component record
together with executable `formatRFC3339` / `parseRFC3339` functions
covering the canonical RFC3339 forms accepted and produced by the Go
standard library, and a civil-calendar conversion to Unix seconds for
the `time.Since` comparison.  (`time.Since` in Go also sees sub-second
nanoseconds of the current instant; the model works at the second
granularity of the stored RFC3339 string, which is the granularity every
claim is stated at.)
-/

namespace Gotest

/-- Root command name (template variable `Name` in main.go). -/
def Name : String := "gotest"

/-- Default log level constant from main.go. -/
def DefaultLogLevel : String := "warn"

/-- Fixed index file location, `/var/lib/<Name>/index`. -/
def DataIndexPath : String := "/var/lib/" ++ Name ++ "/index"

/-! ## Time model: Go `time.Time` at second granularity -/

/-- Component view of a Go `time.Time` as rendered by
`Format(time.RFC3339)`: civil date, clock time, and zone offset in
minutes east of UTC. -/
structure GoTime where
  year : Nat
  month : Nat
  day : Nat
  hour : Nat
  minute : Nat
  second : Nat
  offsetMin : Int
  deriving DecidableEq, Repr

/-- Leap year rule of the proleptic Gregorian calendar (Go `isLeap`). -/
def isLeap (y : Nat) : Bool :=
  y % 4 == 0 && (y % 100 != 0 || y % 400 == 0)

/-- Number of days in a month, with the leap rule (Go `daysIn`). -/
def daysInMonth (y m : Nat) : Nat :=
  if m == 2 then (if isLeap y then 29 else 28)
  else if m == 4 || m == 6 || m == 9 || m == 11 then 30
  else 31

/-- Component ranges within which the `Format(time.RFC3339)` rendering
is canonical and `time.Parse` inverts it (used as the hypothesis on the
current time in the round-trip theorem).  Go `time.Now()` always
satisfies them: real zone offsets stay within a day.  The parser itself
does not use this predicate; its validations are `validDateClock` and
the zone field checks inside `parseZone`, mirroring Go. -/
def validTime (t : GoTime) : Bool :=
  t.year ≤ 9999 && 1 ≤ t.month && t.month ≤ 12 &&
  1 ≤ t.day && t.day ≤ daysInMonth t.year t.month &&
  t.hour ≤ 23 && t.minute ≤ 59 && t.second ≤ 59 &&
  -24 * 60 < t.offsetMin && t.offsetMin < 24 * 60

/-- Date and clock field validations Go `time.Parse` performs on an
RFC3339 value: month 1-12, day within the month, hour below 24, minute
and second below 60 (the zone offset is checked separately during zone
parsing, as in Go). -/
def validDateClock (y mo d h mi s : Nat) : Bool :=
  y ≤ 9999 && 1 ≤ mo && mo ≤ 12 &&
  1 ≤ d && d ≤ daysInMonth y mo &&
  h ≤ 23 && mi ≤ 59 && s ≤ 59

/-- Days from the civil epoch 1970-01-01 (Hinnant day-count formula, as
used for Go `Time.Unix` semantics). -/
def daysFromCivil (y : Int) (m d : Nat) : Int :=
  let y2 : Int := if m ≤ 2 then y - 1 else y
  let era : Int := (if 0 ≤ y2 then y2 else y2 - 399) / 400
  let yoe : Int := y2 - era * 400
  let mp : Int := if 2 < m then (m : Int) - 3 else (m : Int) + 9
  let doy : Int := (153 * mp + 2) / 5 + (d : Int) - 1
  let doe : Int := yoe * 365 + yoe / 4 - yoe / 100 + doy
  era * 146097 + doe - 719468

/-- Unix seconds of a `GoTime` (Go `Time.Unix()`). -/
def unixSec (t : GoTime) : Int :=
  daysFromCivil (t.year : Int) t.month t.day * 86400 +
    (t.hour : Int) * 3600 + (t.minute : Int) * 60 + (t.second : Int) -
    t.offsetMin * 60

/-- Nanoseconds per second; Go `time.Duration` counts nanoseconds. -/
def nsPerSec : Int := 1000000000

/-- Go `time.Hour` as a duration in nanoseconds. -/
def goHour : Int := 3600 * nsPerSec

/-- Go `time.Since(t)` evaluated at current instant `now`, in
nanoseconds (second granularity, see module comment). -/
def goSince (now t : GoTime) : Int :=
  (unixSec now - unixSec t) * nsPerSec

/-! ## RFC3339 formatting and parsing (Go `Format` / `time.Parse`) -/

/-- Decimal digit character. -/
def digitChar (d : Nat) : Char := Char.ofNat (48 + d)

/-- Two-digit zero-padded decimal rendering. -/
def pad2 (n : Nat) : List Char := [digitChar (n / 10), digitChar (n % 10)]

/-- Four-digit zero-padded decimal rendering. -/
def pad4 (n : Nat) : List Char :=
  [digitChar (n / 1000), digitChar (n / 100 % 10),
   digitChar (n / 10 % 10), digitChar (n % 10)]

/-- Zone suffix of `Format(time.RFC3339)`: `Z` for UTC, otherwise a
signed `hh:mm` offset. -/
def fmtZone (offsetMin : Int) : List Char :=
  if offsetMin = 0 then ['Z']
  else
    let a := offsetMin.natAbs
    (if 0 < offsetMin then '+' else '-') :: (pad2 (a / 60) ++ ':' :: pad2 (a % 60))

/-- Character list of `t.Format(time.RFC3339)`. -/
def fmtChars (t : GoTime) : List Char :=
  pad4 t.year ++ '-' :: (pad2 t.month ++ '-' :: (pad2 t.day ++
    'T' :: (pad2 t.hour ++ ':' :: (pad2 t.minute ++ ':' :: (pad2 t.second ++
      fmtZone t.offsetMin)))))

/-- Go `t.Format(time.RFC3339)`. -/
def formatRFC3339 (t : GoTime) : String := ⟨fmtChars t⟩

/-- Parse a decimal digit character. -/
def parseDigit (c : Char) : Option Nat :=
  if 48 ≤ c.toNat && c.toNat ≤ 57 then some (c.toNat - 48) else none

/-- Parse a two-digit decimal field. -/
def parse2 : List Char → Option (Nat × List Char)
  | c1 :: c2 :: rest => do
    let d1 ← parseDigit c1
    let d2 ← parseDigit c2
    some (10 * d1 + d2, rest)
  | _ => none

/-- Parse a four-digit decimal field. -/
def parse4 : List Char → Option (Nat × List Char)
  | c1 :: c2 :: c3 :: c4 :: rest => do
    let d1 ← parseDigit c1
    let d2 ← parseDigit c2
    let d3 ← parseDigit c3
    let d4 ← parseDigit c4
    some (1000 * d1 + 100 * d2 + 10 * d3 + d4, rest)
  | _ => none

/-- Require a literal character (layout byte in Go `time.Parse`). -/
def expectChar (c : Char) : List Char → Option (List Char)
  | c2 :: rest => if c = c2 then some rest else none
  | [] => none

/-- Skip an optional fractional-seconds field: Go `time.Parse` accepts
either a comma or a decimal point followed by a maximal series of
digits after the seconds. -/
def parseFrac (l : List Char) : Option (List Char) :=
  match l with
  | c :: rest =>
    if c = '.' || c = ',' then
      match rest with
      | c2 :: _ =>
        if (parseDigit c2).isSome then
          some (rest.dropWhile fun d => (parseDigit d).isSome)
        else none
      | [] => none
    else some l
  | [] => some l

/-- Parse the zone suffix: uppercase `Z` (Go rejects lowercase `z` for
the RFC3339 layout), or a signed `hh:mm` offset, yielding the offset in
minutes; must consume the rest of the input.  Go bounds the offset
fields with strict `>` tests — hours up to and including 24 and minutes
up to and including 60 are accepted, anything above is rejected. -/
def parseZone (l : List Char) : Option Int :=
  if l = ['Z'] then some 0
  else
    match l with
    | c :: rest =>
      if c = '+' || c = '-' then
        match parse2 rest with
        | none => none
        | some (h, r1) =>
          match expectChar ':' r1 with
          | none => none
          | some r2 =>
            match parse2 r2 with
            | none => none
            | some (m, r3) =>
              if r3 = [] then
                if h ≤ 24 && m ≤ 60 then
                  some (if c = '+' then (h : Int) * 60 + (m : Int)
                        else -((h : Int) * 60 + (m : Int)))
                else none
              else none
      else none
    | [] => none

/-- Parse the character list of an RFC3339 timestamp, validating the
component ranges the way Go `time.Parse` does. -/
def parseRFC3339Chars (l : List Char) : Option GoTime :=
  match parse4 l with
  | none => none
  | some (y, r1) =>
    match expectChar '-' r1 with
    | none => none
    | some r2 =>
      match parse2 r2 with
      | none => none
      | some (mo, r3) =>
        match expectChar '-' r3 with
        | none => none
        | some r4 =>
          match parse2 r4 with
          | none => none
          | some (d, r5) =>
            match expectChar 'T' r5 with
            | none => none
            | some r6 =>
              match parse2 r6 with
              | none => none
              | some (h, r7) =>
                match expectChar ':' r7 with
                | none => none
                | some r8 =>
                  match parse2 r8 with
                  | none => none
                  | some (mi, r9) =>
                    match expectChar ':' r9 with
                    | none => none
                    | some r10 =>
                      match parse2 r10 with
                      | none => none
                      | some (s, r11) =>
                        match parseFrac r11 with
                        | none => none
                        | some r12 =>
                          match parseZone r12 with
                          | none => none
                          | some off =>
                            if validDateClock y mo d h mi s then
                              some ⟨y, mo, d, h, mi, s, off⟩
                            else none

/-- Go `time.Parse(time.RFC3339, s)`: `some` on success, `none` when Go
would return an error. -/
def parseRFC3339 (s : String) : Option GoTime := parseRFC3339Chars s.data

/-! ## getDataPath (main.go lines 185-214) -/

/-- Results of the external calls `getDataPath` makes: effective uid,
`os.Open` on the index file, the `bufio.Scanner` pass over it (either
the list of scanned lines or `sc.Err()`), and `os.UserHomeDir`. -/
structure GetDataPathEnv where
  euid : Int
  openResult : Except String Unit
  scanned : Except String (List String)
  homeDir : Except String String

/-- Embedding of `getDataPath`: as root, read the index file and return
its second line; otherwise derive the path from the home directory. -/
def getDataPath (env : GetDataPathEnv) : Except String String :=
  if env.euid = 0 then
    match env.openResult with
    | .error err => .error ("failed to open " ++ DataIndexPath ++ ": " ++ err)
    | .ok _ =>
      match env.scanned with
      | .error err => .error ("failed reading " ++ DataIndexPath ++ ": " ++ err)
      | .ok lines =>
        if lines.length < 2 then .error ("malformed index file " ++ DataIndexPath)
        else .ok (lines.getD 1 "")
  else
    match env.homeDir with
    | .error err => .error ("cannot determine home dir: " ++ err)
    | .ok home => .ok (home ++ "/." ++ Name)

/-! ## The run function (main.go lines 39-183) -/

/-- Observable events of a run, in program order: lines written to
standard error and standard output, directory creation, config store
reads and writes, the `time.Parse` call on the stored timestamp, the
`update.Check` network call, `log.SetLevel` calls, and control passing
the CLI `Before` hook into command dispatch. -/
inductive Event where
  | stderrLine (s : String)
  | stdoutLine (s : String)
  | mkdir (path : String)
  | configGet (key : String)
  | configSet (key : String) (value : String)
  | parseCall (s : String)
  | updateCheckCall
  | setLevelCall (level : String)
  | subcommandRun
  deriving DecidableEq, Repr

/-- Results of the external calls `run` makes, in program order:
`getDataPath` inputs, the two `os.MkdirAll` calls, `xlog.New`,
`database.New`, `config.Init`, the config reads, the `log.SetLevel`
behaviour on each level string, the current time, `config.Set`,
`update.Check`, the parsed value of the `--log` flag, and the outcome of
dispatching to the selected subcommand (everything `app.Run` does after
the `Before` hook; subcommand internals are outside this repository
excerpt and carry no events here). -/
structure RunEnv where
  gdp : GetDataPathEnv
  mkdirData : Except String Unit
  mkdirLogs : Except String Unit
  xlogNew : Except String Unit
  dbNew : Except String Unit
  configInit : Except String Unit
  logLevelCfg : Except String String
  setLevel : String → Except String Unit
  updateNotify : Except String Bool
  lastUpdateCheck : Except String String
  now : GoTime
  configSetRes : Except String Unit
  updateCheckRes : Except String Bool
  cliLogFlag : String
  subcmdRun : Except String Unit

/-- Startup sequence of `run` up to and including the initial
`log.SetLevel(cfgLogLevel)` (main.go lines 48-103): event trace plus
`some code` when an early `return code` fires, `none` to continue. -/
def initPhase (env : RunEnv) : List Event × Option Int :=
  match getDataPath env.gdp with
  | .error e => ([.stderrLine ("failed to get data path: " ++ e)], some 1)
  | .ok dataPath =>
    match env.mkdirData with
    | .error e =>
      ([.mkdir dataPath, .stderrLine ("failed to create data path: " ++ e)], some 1)
    | .ok _ =>
      match env.mkdirLogs with
      | .error e =>
        ([.mkdir dataPath, .mkdir (dataPath ++ "/logs"),
          .stderrLine ("failed to create log path: " ++ e)], some 1)
      | .ok _ =>
        match env.xlogNew with
        | .error e =>
          ([.mkdir dataPath, .mkdir (dataPath ++ "/logs"),
            .stderrLine ("failed to initialize logger: " ++ e)], some 1)
        | .ok _ =>
          match env.dbNew with
          | .error e =>
            ([.mkdir dataPath, .mkdir (dataPath ++ "/logs"),
              .stderrLine ("failed to initialize database: " ++ e)], some 1)
          | .ok _ =>
            match env.configInit with
            | .error e =>
              ([.mkdir dataPath, .mkdir (dataPath ++ "/logs"),
                .stderrLine ("failed to initialize config: " ++ e)], some 1)
            | .ok _ =>
              match env.logLevelCfg with
              | .error e =>
                ([.mkdir dataPath, .mkdir (dataPath ++ "/logs"), .configGet "logLevel",
                  .stderrLine ("failed to get log level from config: " ++ e)], some 1)
              | .ok cfgLogLevel =>
                match env.setLevel cfgLogLevel with
                | .error e =>
                  ([.mkdir dataPath, .mkdir (dataPath ++ "/logs"), .configGet "logLevel",
                    .setLevelCall cfgLogLevel,
                    .stderrLine ("failed to set log level: " ++ e)], some 1)
                | .ok _ =>
                  ([.mkdir dataPath, .mkdir (dataPath ++ "/logs"), .configGet "logLevel",
                    .setLevelCall cfgLogLevel], none)

/-- Update-check block of `run` (main.go lines 106-143): read the
`updateNotify` flag; when set, read and parse `lastUpdateCheck`; when
stale by more than 24 hours, persist the new timestamp first and then
perform the network check, printing a notice when one is available. -/
def updateBlock (env : RunEnv) : List Event × Option Int :=
  match env.updateNotify with
  | .error e =>
    ([.configGet "updateNotify",
      .stderrLine ("failed to get updateNotify from config: " ++ e)], some 1)
  | .ok false => ([.configGet "updateNotify"], none)
  | .ok true =>
    match env.lastUpdateCheck with
    | .error e =>
      ([.configGet "updateNotify", .configGet "lastUpdateCheck",
        .stderrLine ("failed to get lastUpdateCheck from config: " ++ e)], some 1)
    | .ok tStr =>
      match parseRFC3339 tStr with
      | none =>
        ([.configGet "updateNotify", .configGet "lastUpdateCheck", .parseCall tStr,
          .stderrLine "failed to parse lastUpdateCheck time"], some 1)
      | some t =>
        if goSince env.now t > 24 * goHour then
          match env.configSetRes with
          | .error e =>
            ([.configGet "updateNotify", .configGet "lastUpdateCheck", .parseCall tStr,
              .configSet "lastUpdateCheck" (formatRFC3339 env.now),
              .stderrLine ("failed to set lastUpdateCheck in config: " ++ e)], some 1)
          | .ok _ =>
            match env.updateCheckRes with
            | .error e =>
              ([.configGet "updateNotify", .configGet "lastUpdateCheck", .parseCall tStr,
                .configSet "lastUpdateCheck" (formatRFC3339 env.now), .updateCheckCall,
                .stderrLine ("failed to check for updates: " ++ e)], some 1)
            | .ok updateAvailable =>
              ([.configGet "updateNotify", .configGet "lastUpdateCheck", .parseCall tStr,
                .configSet "lastUpdateCheck" (formatRFC3339 env.now), .updateCheckCall] ++
                (if updateAvailable then
                  [.stdoutLine "Update available! Run \x27goweb update check\x27 to see details."]
                else []), none)
        else
          ([.configGet "updateNotify", .configGet "lastUpdateCheck", .parseCall tStr], none)

/-- CLI phase of `run` (main.go lines 146-182): the `Before` hook calls
`log.SetLevel` exactly when the `--log` flag differs from the built-in
default, then the framework dispatches to the subcommand; an error from
`app.Run` is printed to standard error and yields exit code 1. -/
def appPhase (env : RunEnv) : List Event × Int :=
  if env.cliLogFlag ≠ DefaultLogLevel then
    match env.setLevel env.cliLogFlag with
    | .error e => ([.setLevelCall env.cliLogFlag, .stderrLine e], 1)
    | .ok _ =>
      match env.subcmdRun with
      | .error e =>
        ([.setLevelCall env.cliLogFlag, .subcommandRun, .stderrLine e], 1)
      | .ok _ => ([.setLevelCall env.cliLogFlag, .subcommandRun], 0)
  else
    match env.subcmdRun with
    | .error e => ([.subcommandRun, .stderrLine e], 1)
    | .ok _ => ([.subcommandRun], 0)

/-- Embedding of `run` (main.go lines 39-183): the three phases in
sequence, stopping at the first early return. -/
def run (env : RunEnv) : List Event × Int :=
  match initPhase env with
  | (evts, some code) => (evts, code)
  | (evts1, none) =>
    match updateBlock env with
    | (evts2, some code) => (evts1 ++ evts2, code)
    | (evts2, none) =>
      let ac := appPhase env
      (evts1 ++ evts2 ++ ac.1, ac.2)

/-! ## Error-free predicates for the three phases -/

/-- Whether an external call succeeded. -/
def isOkE {α : Type} (e : Except String α) : Bool :=
  match e with
  | .ok _ => true
  | .error _ => false

/-- All error sources of the startup sequence (main.go lines 48-103):
path resolution, the two directory creations, logger, database and
config initialization, the `logLevel` read, and applying it. -/
def initOkB (env : RunEnv) : Bool :=
  isOkE (getDataPath env.gdp) && isOkE env.mkdirData && isOkE env.mkdirLogs &&
  isOkE env.xlogNew && isOkE env.dbNew && isOkE env.configInit &&
  (match env.logLevelCfg with
   | .error _ => false
   | .ok lv => isOkE (env.setLevel lv))

/-- All error sources of the update-check block (main.go lines
106-143): the two config reads, the timestamp parse, and, on the stale
path, the config write and the network check. -/
def updOkB (env : RunEnv) : Bool :=
  match env.updateNotify with
  | .error _ => false
  | .ok false => true
  | .ok true =>
    match env.lastUpdateCheck with
    | .error _ => false
    | .ok tStr =>
      match parseRFC3339 tStr with
      | none => false
      | some t =>
        if goSince env.now t > 24 * goHour then
          isOkE env.configSetRes && isOkE env.updateCheckRes
        else true

/-- All error sources of the CLI phase (main.go lines 146-182): the
`Before` hook on a non-default `--log` flag, and command execution. -/
def appOkB (env : RunEnv) : Bool :=
  (if env.cliLogFlag ≠ DefaultLogLevel then isOkE (env.setLevel env.cliLogFlag) else true) &&
  isOkE env.subcmdRun

/-- A run is error free when every step of every phase succeeds. -/
def errorFree (env : RunEnv) : Bool :=
  initOkB env && updOkB env && appOkB env

/-- Shared concrete environment for witnesses: non-root run with every
external call succeeding, a stored timestamp from 2020, current time in
2025, default `--log` flag, and no update available. -/
def baseEnv : RunEnv :=
  { gdp := ⟨1000, .ok (), .ok [], .ok "/home/u"⟩, mkdirData := .ok (),
    mkdirLogs := .ok (), xlogNew := .ok (), dbNew := .ok (),
    configInit := .ok (), logLevelCfg := .ok "info",
    setLevel := fun _ => .ok (), updateNotify := .ok true,
    lastUpdateCheck := .ok (formatRFC3339 ⟨2020, 1, 2, 3, 4, 5, 0⟩),
    now := ⟨2025, 6, 7, 8, 9, 10, 0⟩, configSetRes := .ok (),
    updateCheckRes := .ok false, cliLogFlag := "warn", subcmdRun := .ok () }

/-- Witness environment for C5: stored timestamp is not RFC3339. -/
def envC5 : RunEnv := { baseEnv with lastUpdateCheck := .ok "garbage" }

/-- Witness environment for C3: stored timestamp is two hours old. -/
def envC3 : RunEnv :=
  { baseEnv with lastUpdateCheck := .ok (formatRFC3339 ⟨2025, 6, 7, 6, 9, 10, 0⟩) }

/-- Witness environment for C2: stale timestamp and a failing network
check. -/
def envC2 : RunEnv := { baseEnv with updateCheckRes := .error "offline" }

/-- Environment with the stored `lastUpdateCheck` oracle replaced. -/
def withLast (env : RunEnv) (x : Except String String) : RunEnv :=
  { env with lastUpdateCheck := x }

/-- Witness environment for C9: notifications off and a malformed
stored timestamp. -/
def envC9 : RunEnv :=
  { baseEnv with updateNotify := .ok false, lastUpdateCheck := .ok "garbage" }

/-- Whether an event is a `log.SetLevel` call. -/
def isSetLevelEvent : Event → Bool
  | .setLevelCall _ => true
  | _ => false

/-- Witness environment for C7: `--log debug` passed. -/
def envC7 : RunEnv := { baseEnv with cliLogFlag := "debug" }

/-! ## Phase lemmas -/

/-- On a fully successful startup sequence, the events are the two
directory creations, the `logLevel` read and the initial `SetLevel`. -/
theorem initPhase_of_ok (env : RunEnv) (p lv : String)
    (h1 : getDataPath env.gdp = .ok p) (h2 : env.mkdirData = .ok ())
    (h3 : env.mkdirLogs = .ok ()) (h4 : env.xlogNew = .ok ())
    (h5 : env.dbNew = .ok ()) (h6 : env.configInit = .ok ())
    (h7 : env.logLevelCfg = .ok lv) (h8 : env.setLevel lv = .ok ()) :
    initPhase env =
      ([.mkdir p, .mkdir (p ++ "/logs"), .configGet "logLevel", .setLevelCall lv], none) := by
  simp only [initPhase, h1, h2, h3, h4, h5, h6, h7, h8]

/-- Every event of the CLI phase is the dispatch marker, the flag-driven
`SetLevel` call, or a standard-error line. -/
theorem appPhase_shape (env : RunEnv) :
    ∀ e ∈ (appPhase env).1,
      e = Event.subcommandRun ∨ e = Event.setLevelCall env.cliLogFlag ∨
        ∃ s, e = Event.stderrLine s := by
  intro e he
  unfold appPhase at he
  repeat' split at he
  all_goals simp at he
  all_goals tauto

/-- The CLI phase performs no network update check. -/
theorem updateCheckCall_not_mem_appPhase (env : RunEnv) :
    Event.updateCheckCall ∉ (appPhase env).1 := by
  intro h
  rcases appPhase_shape env _ h with h' | h' | ⟨s, h'⟩ <;> simp_all

/-- The CLI phase prints nothing to standard output. -/
theorem stdoutLine_not_mem_appPhase (env : RunEnv) (s : String) :
    Event.stdoutLine s ∉ (appPhase env).1 := by
  intro h
  rcases appPhase_shape env _ h with h' | h' | ⟨u, h'⟩ <;> simp_all

/-- The CLI phase writes no config key. -/
theorem configSet_not_mem_appPhase (env : RunEnv) (k v : String) :
    Event.configSet k v ∉ (appPhase env).1 := by
  intro h
  rcases appPhase_shape env _ h with h' | h' | ⟨u, h'⟩ <;> simp_all

/-- The CLI phase reads no config key. -/
theorem configGet_not_mem_appPhase (env : RunEnv) (k : String) :
    Event.configGet k ∉ (appPhase env).1 := by
  intro h
  rcases appPhase_shape env _ h with h' | h' | ⟨u, h'⟩ <;> simp_all

/-- The CLI phase parses no timestamp. -/
theorem parseCall_not_mem_appPhase (env : RunEnv) (s : String) :
    Event.parseCall s ∉ (appPhase env).1 := by
  intro h
  rcases appPhase_shape env _ h with h' | h' | ⟨u, h'⟩ <;> simp_all

/-- The startup sequence continues exactly when all its steps succeed,
and otherwise stops with code 1. -/
theorem initPhase_code (env : RunEnv) :
    (initPhase env).2 = if initOkB env then none else some 1 := by
  unfold initPhase initOkB isOkE
  repeat' split <;> try rfl
  all_goals simp_all

/-- The update-check block continues exactly when all its steps
succeed, and otherwise stops with code 1. -/
theorem updateBlock_code (env : RunEnv) :
    (updateBlock env).2 = if updOkB env then none else some 1 := by
  unfold updateBlock updOkB isOkE
  repeat' split <;> try rfl
  all_goals simp_all

/-- The CLI phase returns 0 exactly when the `Before` hook and the
subcommand succeed, and otherwise 1. -/
theorem appPhase_code (env : RunEnv) :
    (appPhase env).2 = if appOkB env then 0 else 1 := by
  unfold appPhase appOkB isOkE
  repeat' split <;> try rfl
  all_goals simp_all

/-- The update-check block never dispatches to a subcommand. -/
theorem subcommandRun_not_mem_updateBlock (env : RunEnv) :
    Event.subcommandRun ∉ (updateBlock env).1 := by
  intro he
  unfold updateBlock at he
  repeat' split at he
  all_goals simp_all

/-- The update-check block never calls `log.SetLevel`. -/
theorem setLevelCall_not_mem_updateBlock (env : RunEnv) (l : String) :
    Event.setLevelCall l ∉ (updateBlock env).1 := by
  intro he
  unfold updateBlock at he
  repeat' split at he
  all_goals simp_all

/-- The startup sequence never dispatches to a subcommand. -/
theorem subcommandRun_not_mem_initPhase (env : RunEnv) :
    Event.subcommandRun ∉ (initPhase env).1 := by
  intro he
  unfold initPhase at he
  repeat' split at he
  all_goals simp_all

/-- The startup sequence writes no config key. -/
theorem configSet_not_mem_initPhase (env : RunEnv) (k v : String) :
    Event.configSet k v ∉ (initPhase env).1 := by
  intro he
  unfold initPhase at he
  repeat' split at he
  all_goals simp_all

/-- The only config write the update-check block can perform is the
`lastUpdateCheck` refresh with the RFC3339 rendering of the current
time. -/
theorem updateBlock_configSet_value (env : RunEnv) (k v : String)
    (he : Event.configSet k v ∈ (updateBlock env).1) :
    k = "lastUpdateCheck" ∧ v = formatRFC3339 env.now := by
  unfold updateBlock at he
  repeat' split at he
  all_goals simp_all

/-! ## Claim theorems -/

/-- C6: the process exit code is 1 exactly when some initialization
step (path resolution, directory creation, logger, database, config
init, config key retrieval or application, timestamp parse, config
write, update check) or command execution returns an error, and 0 on
every run in which no such error occurs.  `errorFree` enumerates
precisely the error sources of the code. -/
theorem c6_exit_code (env : RunEnv) :
    (run env).2 = if errorFree env then 0 else 1 := by
  rcases hI : initPhase env with ⟨e1, r1⟩
  rcases hU : updateBlock env with ⟨e2, r2⟩
  have h1 : r1 = if initOkB env then none else some 1 := by
    have h := initPhase_code env; rw [hI] at h; exact h
  have h2 : r2 = if updOkB env then none else some 1 := by
    have h := updateBlock_code env; rw [hU] at h; exact h
  have h3 : (appPhase env).2 = if appOkB env then 0 else 1 := appPhase_code env
  unfold run errorFree
  rw [hI, hU]
  by_cases b1 : initOkB env <;> by_cases b2 : updOkB env <;> simp_all

/-- C1: with effective uid 0, when the index file is readable and
scans to at least two lines, `getDataPath` returns the second line
unchanged; with fewer than two lines it returns the malformed-index
error; and in the root branch the result never depends on the home
directory, so it is never a path derived from it. -/
theorem c1_getDataPath (env : GetDataPathEnv) (he : env.euid = 0) :
    (∀ lines a b rest, env.openResult = .ok () → env.scanned = .ok lines →
      lines = a :: b :: rest → getDataPath env = .ok b) ∧
    (∀ lines, env.openResult = .ok () → env.scanned = .ok lines →
      lines.length < 2 →
      getDataPath env = .error ("malformed index file " ++ DataIndexPath)) ∧
    (∀ hd, getDataPath ⟨env.euid, env.openResult, env.scanned, hd⟩ = getDataPath env) := by
  refine ⟨?_, ?_, ?_⟩
  · intro lines a b rest ho hs hl
    subst hl
    simp [getDataPath, he, ho, hs]
  · intro lines ho hs hl
    simp [getDataPath, he, ho, hs, hl]
  · intro hd
    unfold getDataPath
    simp only [he]
    norm_num

/-- Witness for C1 at a concrete two-line index file and at a one-line
index file. -/
theorem c1_getDataPath_witness :
    getDataPath ⟨0, .ok (), .ok ["owner", "/srv/gotest"], .ok "/home/u"⟩ =
        .ok "/srv/gotest" ∧
    getDataPath ⟨0, .ok (), .ok ["only"], .ok "/home/u"⟩ =
        .error ("malformed index file " ++ DataIndexPath) ∧
    getDataPath ⟨0, .ok (), .ok ["owner", "/srv/gotest"], .ok "/home/u"⟩ =
        getDataPath ⟨0, .ok (), .ok ["owner", "/srv/gotest"], .error "no home"⟩ := by
  refine ⟨?_, ?_, ?_⟩
  · exact (c1_getDataPath ⟨0, .ok (), .ok ["owner", "/srv/gotest"], .ok "/home/u"⟩ rfl).1
      ["owner", "/srv/gotest"] "owner" "/srv/gotest" [] rfl rfl rfl
  · exact (c1_getDataPath ⟨0, .ok (), .ok ["only"], .ok "/home/u"⟩ rfl).2.1
      ["only"] rfl rfl (by decide)
  · exact (c1_getDataPath ⟨0, .ok (), .ok ["owner", "/srv/gotest"], .error "no home"⟩ rfl).2.2
      (.ok "/home/u")

/-- C5: when the stored `lastUpdateCheck` value does not parse as
RFC3339 (in a run that reaches the update block: startup succeeded and
`updateNotify` is true), startup fails fatally: the parse-failure
message goes to standard error and the run returns exit code 1.  `run`
is a total function, so no crash or divergence is possible. -/
theorem c5_invalid_timestamp_fatal (env : RunEnv) (p lv tStr : String)
    (h1 : getDataPath env.gdp = .ok p) (h2 : env.mkdirData = .ok ())
    (h3 : env.mkdirLogs = .ok ()) (h4 : env.xlogNew = .ok ())
    (h5 : env.dbNew = .ok ()) (h6 : env.configInit = .ok ())
    (h7 : env.logLevelCfg = .ok lv) (h8 : env.setLevel lv = .ok ())
    (hn : env.updateNotify = .ok true) (hl : env.lastUpdateCheck = .ok tStr)
    (hp : parseRFC3339 tStr = none) :
    (run env).2 = 1 ∧
      Event.stderrLine "failed to parse lastUpdateCheck time" ∈ (run env).1 := by
  have hI := initPhase_of_ok env p lv h1 h2 h3 h4 h5 h6 h7 h8
  have hU : updateBlock env =
      ([.configGet "updateNotify", .configGet "lastUpdateCheck", .parseCall tStr,
        .stderrLine "failed to parse lastUpdateCheck time"], some 1) := by
    simp only [updateBlock, hn, hl, hp]
  unfold run
  rw [hI, hU]
  simp



/-- Witness for C5: a concrete run whose stored timestamp is not
RFC3339 exits 1 with the parse-failure message printed. -/
theorem c5_invalid_timestamp_fatal_witness :
    (run envC5).2 = 1 ∧
      Event.stderrLine "failed to parse lastUpdateCheck time" ∈ (run envC5).1 :=
  c5_invalid_timestamp_fatal envC5 "/home/u/.gotest" "info" "garbage"
    rfl rfl rfl rfl rfl rfl rfl rfl rfl rfl (by decide)

/-- C3: when the stored `lastUpdateCheck` timestamp parses and is less
than 24 hours before now (in a run that reaches the update block), no
network check happens, nothing is printed to standard output, and the
stored value is never overwritten. -/
theorem c3_fresh_timestamp_skips_check (env : RunEnv) (p lv tStr : String)
    (t : GoTime)
    (h1 : getDataPath env.gdp = .ok p) (h2 : env.mkdirData = .ok ())
    (h3 : env.mkdirLogs = .ok ()) (h4 : env.xlogNew = .ok ())
    (h5 : env.dbNew = .ok ()) (h6 : env.configInit = .ok ())
    (h7 : env.logLevelCfg = .ok lv) (h8 : env.setLevel lv = .ok ())
    (hn : env.updateNotify = .ok true) (hl : env.lastUpdateCheck = .ok tStr)
    (hp : parseRFC3339 tStr = some t)
    (hfresh : goSince env.now t < 24 * goHour) :
    Event.updateCheckCall ∉ (run env).1 ∧
    (∀ s, Event.stdoutLine s ∉ (run env).1) ∧
    (∀ v, Event.configSet "lastUpdateCheck" v ∉ (run env).1) := by
  have hI := initPhase_of_ok env p lv h1 h2 h3 h4 h5 h6 h7 h8
  have hcond : ¬ (goSince env.now t > 24 * goHour) := by omega
  have hU : updateBlock env =
      ([.configGet "updateNotify", .configGet "lastUpdateCheck", .parseCall tStr],
        none) := by
    simp only [updateBlock, hn, hl, hp, if_neg hcond]
  unfold run
  rw [hI, hU]
  refine ⟨?_, ?_, ?_⟩
  · simp [updateCheckCall_not_mem_appPhase env]
  · intro s
    simp [stdoutLine_not_mem_appPhase env s]
  · intro v
    simp [configSet_not_mem_appPhase env "lastUpdateCheck" v]


/-- Witness for C3: a concrete run whose stored timestamp is two hours
old performs no check, prints nothing, and writes no timestamp. -/
theorem c3_fresh_timestamp_skips_check_witness :
    Event.updateCheckCall ∉ (run envC3).1 ∧
      Event.stdoutLine "hello" ∉ (run envC3).1 ∧
      Event.configSet "lastUpdateCheck" "x" ∉ (run envC3).1 := by
  have h := c3_fresh_timestamp_skips_check envC3 "/home/u/.gotest" "info"
    (formatRFC3339 ⟨2025, 6, 7, 6, 9, 10, 0⟩) ⟨2025, 6, 7, 6, 9, 10, 0⟩
    rfl rfl rfl rfl rfl rfl rfl rfl rfl rfl (by decide) (by decide)
  exact ⟨h.1, h.2.1 "hello", h.2.2 "x"⟩

/-- C2: when the update block finds the stored timestamp more than 24
hours old, the trace splits as `pre ++ [config.Set lastUpdateCheck
(new timestamp)] ++ post` where no `update.Check` occurs in `pre`, and
whenever `config.Set` succeeds the check itself occurs in `post`: the
new timestamp is persisted strictly before the network check, so a
failed check (`updateCheckRes` an error) still leaves the write in the
trace. -/
theorem c2_set_before_check (env : RunEnv) (p lv tStr : String) (t : GoTime)
    (h1 : getDataPath env.gdp = .ok p) (h2 : env.mkdirData = .ok ())
    (h3 : env.mkdirLogs = .ok ()) (h4 : env.xlogNew = .ok ())
    (h5 : env.dbNew = .ok ()) (h6 : env.configInit = .ok ())
    (h7 : env.logLevelCfg = .ok lv) (h8 : env.setLevel lv = .ok ())
    (hn : env.updateNotify = .ok true) (hl : env.lastUpdateCheck = .ok tStr)
    (hp : parseRFC3339 tStr = some t)
    (hstale : goSince env.now t > 24 * goHour) :
    ∃ pre post, (run env).1 =
        pre ++ Event.configSet "lastUpdateCheck" (formatRFC3339 env.now) :: post ∧
      Event.updateCheckCall ∉ pre ∧
      (env.configSetRes = .ok () → Event.updateCheckCall ∈ post) := by
  have hI := initPhase_of_ok env p lv h1 h2 h3 h4 h5 h6 h7 h8
  rcases hset : env.configSetRes with e | u
  · have hU : updateBlock env =
        ([.configGet "updateNotify", .configGet "lastUpdateCheck", .parseCall tStr,
          .configSet "lastUpdateCheck" (formatRFC3339 env.now),
          .stderrLine ("failed to set lastUpdateCheck in config: " ++ e)], some 1) := by
      simp only [updateBlock, hn, hl, hp, if_pos hstale, hset]
    refine ⟨[.mkdir p, .mkdir (p ++ "/logs"), .configGet "logLevel", .setLevelCall lv,
      .configGet "updateNotify", .configGet "lastUpdateCheck", .parseCall tStr],
      [.stderrLine ("failed to set lastUpdateCheck in config: " ++ e)], ?_, ?_, ?_⟩
    · unfold run
      rw [hI, hU]
      simp
    · simp
    · intro hok
      simp at hok
  · rcases hchk : env.updateCheckRes with e | avail
    · have hU : updateBlock env =
          ([.configGet "updateNotify", .configGet "lastUpdateCheck", .parseCall tStr,
            .configSet "lastUpdateCheck" (formatRFC3339 env.now), .updateCheckCall,
            .stderrLine ("failed to check for updates: " ++ e)], some 1) := by
        simp only [updateBlock, hn, hl, hp, if_pos hstale, hset, hchk]
      refine ⟨[.mkdir p, .mkdir (p ++ "/logs"), .configGet "logLevel", .setLevelCall lv,
        .configGet "updateNotify", .configGet "lastUpdateCheck", .parseCall tStr],
        [.updateCheckCall, .stderrLine ("failed to check for updates: " ++ e)],
        ?_, ?_, ?_⟩
      · unfold run
        rw [hI, hU]
        simp
      · simp
      · intro _
        simp
    · have hU : updateBlock env =
          ([.configGet "updateNotify", .configGet "lastUpdateCheck", .parseCall tStr,
            .configSet "lastUpdateCheck" (formatRFC3339 env.now), .updateCheckCall] ++
            (if avail then
              [.stdoutLine "Update available! Run \x27goweb update check\x27 to see details."]
            else []), none) := by
        simp only [updateBlock, hn, hl, hp, if_pos hstale, hset, hchk]
      refine ⟨[.mkdir p, .mkdir (p ++ "/logs"), .configGet "logLevel", .setLevelCall lv,
        .configGet "updateNotify", .configGet "lastUpdateCheck", .parseCall tStr],
        Event.updateCheckCall ::
          ((if avail then
            [Event.stdoutLine "Update available! Run \x27goweb update check\x27 to see details."]
          else []) ++ (appPhase env).1), ?_, ?_, ?_⟩
      · unfold run
        rw [hI, hU]
        simp
      · simp
      · intro _
        simp


/-- Witness for C2 with a failing check: the write still splits the
trace before the check event. -/
theorem c2_set_before_check_witness :
    ∃ pre post, (run envC2).1 =
        pre ++ Event.configSet "lastUpdateCheck" (formatRFC3339 envC2.now) :: post ∧
      Event.updateCheckCall ∉ pre ∧
      (envC2.configSetRes = .ok () → Event.updateCheckCall ∈ post) :=
  c2_set_before_check envC2 "/home/u/.gotest" "info"
    (formatRFC3339 ⟨2020, 1, 2, 3, 4, 5, 0⟩) ⟨2020, 1, 2, 3, 4, 5, 0⟩
    rfl rfl rfl rfl rfl rfl rfl rfl rfl rfl (by decide) (by decide)

/-- The CLI phase contributes no `update.Check` event to a count. -/
theorem count_updateCheckCall_appPhase (env : RunEnv) :
    (appPhase env).1.count Event.updateCheckCall = 0 :=
  List.count_eq_zero.mpr (updateCheckCall_not_mem_appPhase env)

/-- The CLI phase contributes no config-write event to a count. -/
theorem count_configSet_appPhase (env : RunEnv) (k v : String) :
    (appPhase env).1.count (Event.configSet k v) = 0 :=
  List.count_eq_zero.mpr (configSet_not_mem_appPhase env k v)

/-- C4: when the update block finds the stored timestamp more than 24
hours old, the `lastUpdateCheck` write occurs exactly once in the run,
and whenever that write succeeds the network check also occurs exactly
once (the write itself can only fail if the config store fails, in
which case the run aborts before the check). -/
theorem c4_stale_timestamp_checks_once (env : RunEnv) (p lv tStr : String)
    (t : GoTime)
    (h1 : getDataPath env.gdp = .ok p) (h2 : env.mkdirData = .ok ())
    (h3 : env.mkdirLogs = .ok ()) (h4 : env.xlogNew = .ok ())
    (h5 : env.dbNew = .ok ()) (h6 : env.configInit = .ok ())
    (h7 : env.logLevelCfg = .ok lv) (h8 : env.setLevel lv = .ok ())
    (hn : env.updateNotify = .ok true) (hl : env.lastUpdateCheck = .ok tStr)
    (hp : parseRFC3339 tStr = some t)
    (hstale : goSince env.now t > 24 * goHour) :
    (run env).1.count (Event.configSet "lastUpdateCheck" (formatRFC3339 env.now)) = 1 ∧
    (env.configSetRes = .ok () → (run env).1.count Event.updateCheckCall = 1) := by
  have hI := initPhase_of_ok env p lv h1 h2 h3 h4 h5 h6 h7 h8
  rcases hset : env.configSetRes with e | u
  · have hU : updateBlock env =
        ([.configGet "updateNotify", .configGet "lastUpdateCheck", .parseCall tStr,
          .configSet "lastUpdateCheck" (formatRFC3339 env.now),
          .stderrLine ("failed to set lastUpdateCheck in config: " ++ e)], some 1) := by
      simp only [updateBlock, hn, hl, hp, if_pos hstale, hset]
    constructor
    · unfold run
      rw [hI, hU]
      simp [List.count_cons, List.count_append]
    · intro hok
      simp at hok
  · rcases hchk : env.updateCheckRes with e | avail
    · have hU : updateBlock env =
          ([.configGet "updateNotify", .configGet "lastUpdateCheck", .parseCall tStr,
            .configSet "lastUpdateCheck" (formatRFC3339 env.now), .updateCheckCall,
            .stderrLine ("failed to check for updates: " ++ e)], some 1) := by
        simp only [updateBlock, hn, hl, hp, if_pos hstale, hset, hchk]
      constructor
      · unfold run
        rw [hI, hU]
        simp [List.count_cons, List.count_append]
      · intro _
        unfold run
        rw [hI, hU]
        simp [List.count_cons, List.count_append]
    · have hU : updateBlock env =
          ([.configGet "updateNotify", .configGet "lastUpdateCheck", .parseCall tStr,
            .configSet "lastUpdateCheck" (formatRFC3339 env.now), .updateCheckCall] ++
            (if avail then
              [.stdoutLine "Update available! Run \x27goweb update check\x27 to see details."]
            else []), none) := by
        simp only [updateBlock, hn, hl, hp, if_pos hstale, hset, hchk]
      have hA1 := count_updateCheckCall_appPhase env
      have hA2 := count_configSet_appPhase env "lastUpdateCheck" (formatRFC3339 env.now)
      constructor
      · unfold run
        rw [hI, hU]
        cases avail <;>
          simp [List.count_cons, List.count_append, hA2]
      · intro _
        unfold run
        rw [hI, hU]
        cases avail <;>
          simp [List.count_cons, List.count_append, hA1]

/-- Witness for C4: a concrete stale run writes the timestamp once and
checks once. -/
theorem c4_stale_timestamp_checks_once_witness :
    (run baseEnv).1.count
        (Event.configSet "lastUpdateCheck" (formatRFC3339 baseEnv.now)) = 1 ∧
      (baseEnv.configSetRes = .ok () →
        (run baseEnv).1.count Event.updateCheckCall = 1) :=
  c4_stale_timestamp_checks_once baseEnv "/home/u/.gotest" "info"
    (formatRFC3339 ⟨2020, 1, 2, 3, 4, 5, 0⟩) ⟨2020, 1, 2, 3, 4, 5, 0⟩
    rfl rfl rfl rfl rfl rfl rfl rfl rfl rfl (by decide) (by decide)


/-- C9: when `updateNotify` is false (in a run whose startup
succeeded), `lastUpdateCheck` is never read and never parsed, and the
whole run — trace and exit code — is unchanged under any replacement of
the stored value, so even a malformed timestamp causes no error. -/
theorem c9_notify_false_skips_block (env : RunEnv) (p lv : String)
    (h1 : getDataPath env.gdp = .ok p) (h2 : env.mkdirData = .ok ())
    (h3 : env.mkdirLogs = .ok ()) (h4 : env.xlogNew = .ok ())
    (h5 : env.dbNew = .ok ()) (h6 : env.configInit = .ok ())
    (h7 : env.logLevelCfg = .ok lv) (h8 : env.setLevel lv = .ok ())
    (hn : env.updateNotify = .ok false) :
    Event.configGet "lastUpdateCheck" ∉ (run env).1 ∧
    (∀ s, Event.parseCall s ∉ (run env).1) ∧
    (∀ x, run (withLast env x) = run env) := by
  have hI := initPhase_of_ok env p lv h1 h2 h3 h4 h5 h6 h7 h8
  have hU : updateBlock env = ([.configGet "updateNotify"], none) := by
    simp only [updateBlock, hn]
  refine ⟨?_, ?_, ?_⟩
  · unfold run
    rw [hI, hU]
    simp [configGet_not_mem_appPhase env "lastUpdateCheck"]
  · intro s
    unfold run
    rw [hI, hU]
    simp [parseCall_not_mem_appPhase env s]
  · intro x
    have hI' : initPhase (withLast env x) =
        ([.mkdir p, .mkdir (p ++ "/logs"), .configGet "logLevel", .setLevelCall lv],
          none) :=
      initPhase_of_ok (withLast env x) p lv h1 h2 h3 h4 h5 h6 h7 h8
    have hU' : updateBlock (withLast env x) = ([.configGet "updateNotify"], none) := by
      simp only [updateBlock, withLast, hn]
    have hA' : appPhase (withLast env x) = appPhase env := rfl
    unfold run
    rw [hI, hI', hU, hU', hA']


/-- Witness for C9: with notifications off, a malformed stored value is
never read or parsed and replacing it changes nothing. -/
theorem c9_notify_false_skips_block_witness :
    Event.configGet "lastUpdateCheck" ∉ (run envC9).1 ∧
      Event.parseCall "garbage" ∉ (run envC9).1 ∧
      run (withLast envC9 (.error "missing")) = run envC9 := by
  have h := c9_notify_false_skips_block envC9 "/home/u/.gotest" "info"
    rfl rfl rfl rfl rfl rfl rfl rfl rfl
  exact ⟨h.1, h.2.1 "garbage", h.2.2 (.error "missing")⟩


/-- C7: with `--log debug` (in a run that reaches the CLI phase), the
trace splits as `pre ++ [SetLevel debug] ++ post` where no subcommand
dispatch occurs in `pre` and no further `SetLevel` occurs in `post`:
the `Before` hook sets the debug level before any subcommand executes
and nothing overrides it for the rest of the run. -/
theorem c7_debug_flag_overrides (env : RunEnv) (p lv : String)
    (h1 : getDataPath env.gdp = .ok p) (h2 : env.mkdirData = .ok ())
    (h3 : env.mkdirLogs = .ok ()) (h4 : env.xlogNew = .ok ())
    (h5 : env.dbNew = .ok ()) (h6 : env.configInit = .ok ())
    (h7 : env.logLevelCfg = .ok lv) (h8 : env.setLevel lv = .ok ())
    (hu : updOkB env = true) (hflag : env.cliLogFlag = "debug") :
    ∃ pre post, (run env).1 = pre ++ Event.setLevelCall "debug" :: post ∧
      Event.subcommandRun ∉ pre ∧ ∀ l, Event.setLevelCall l ∉ post := by
  have hI := initPhase_of_ok env p lv h1 h2 h3 h4 h5 h6 h7 h8
  rcases hB : updateBlock env with ⟨e2, r2⟩
  have hr2 : r2 = none := by
    have h := updateBlock_code env
    rw [hB, hu] at h
    simpa using h
  subst hr2
  have hne : env.cliLogFlag ≠ DefaultLogLevel := by
    rw [hflag]
    decide
  have hApp : ∃ rest, (appPhase env).1 = Event.setLevelCall "debug" :: rest ∧
      ∀ l, Event.setLevelCall l ∉ rest := by
    unfold appPhase
    rw [if_pos hne, hflag]
    rcases env.setLevel "debug" with e | u
    · exact ⟨[.stderrLine e], rfl, by intro l; simp⟩
    · rcases env.subcmdRun with e | u2
      · exact ⟨[.subcommandRun, .stderrLine e], rfl, by intro l; simp⟩
      · exact ⟨[.subcommandRun], rfl, by intro l; simp⟩
  rcases hApp with ⟨rest, hApp, hrest⟩
  refine ⟨[Event.mkdir p, Event.mkdir (p ++ "/logs"), Event.configGet "logLevel",
    Event.setLevelCall lv] ++ e2, rest, ?_, ?_, hrest⟩
  · unfold run
    rw [hI, hB]
    simp [hApp]
  · have h2' : Event.subcommandRun ∉ e2 := by
      have := subcommandRun_not_mem_updateBlock env
      rw [hB] at this
      exact this
    simp [h2']


/-- Witness for C7 at a concrete run with `--log debug`. -/
theorem c7_debug_flag_overrides_witness :
    ∃ pre post, (run envC7).1 = pre ++ Event.setLevelCall "debug" :: post ∧
      Event.subcommandRun ∉ pre ∧ ∀ l, Event.setLevelCall l ∉ post :=
  c7_debug_flag_overrides envC7 "/home/u/.gotest" "info"
    rfl rfl rfl rfl rfl rfl rfl rfl (by decide) rfl

/-- C10: with `--log warn` — equal to the built-in default — the
`Before` hook performs no `SetLevel` call, so the only `SetLevel` of
the whole run is the one applying the configured level: the config
level stays in effect. -/
theorem c10_default_flag_no_override (env : RunEnv) (p lv : String)
    (h1 : getDataPath env.gdp = .ok p) (h2 : env.mkdirData = .ok ())
    (h3 : env.mkdirLogs = .ok ()) (h4 : env.xlogNew = .ok ())
    (h5 : env.dbNew = .ok ()) (h6 : env.configInit = .ok ())
    (h7 : env.logLevelCfg = .ok lv) (h8 : env.setLevel lv = .ok ())
    (hu : updOkB env = true) (hflag : env.cliLogFlag = "warn") :
    (run env).1.filter isSetLevelEvent = [Event.setLevelCall lv] := by
  have hI := initPhase_of_ok env p lv h1 h2 h3 h4 h5 h6 h7 h8
  rcases hB : updateBlock env with ⟨e2, r2⟩
  have hr2 : r2 = none := by
    have h := updateBlock_code env
    rw [hB, hu] at h
    simpa using h
  subst hr2
  have hApp : (appPhase env).1.filter isSetLevelEvent = [] := by
    unfold appPhase
    rw [if_neg (by rw [hflag]; simp [DefaultLogLevel])]
    rcases env.subcmdRun with e | u <;> simp [isSetLevelEvent]
  have hUpd : e2.filter isSetLevelEvent = [] := by
    rw [List.filter_eq_nil_iff]
    intro e he hp
    have he2 : e ∈ (updateBlock env).1 := by rw [hB]; exact he
    cases e <;> simp [isSetLevelEvent] at hp
    exact setLevelCall_not_mem_updateBlock env _ he2
  unfold run
  rw [hI, hB]
  simp [List.filter_append, hApp, hUpd, isSetLevelEvent]

/-- Witness for C10 at a concrete run with `--log warn` and configured
level `info`. -/
theorem c10_default_flag_no_override_witness :
    (run baseEnv).1.filter isSetLevelEvent = [Event.setLevelCall "info"] :=
  c10_default_flag_no_override baseEnv "/home/u/.gotest" "info"
    rfl rfl rfl rfl rfl rfl rfl rfl (by decide) rfl

/-! ## Round trip: `time.Parse` inverts `Format` on valid times -/

/-- A decimal digit character parses back to its value. -/
theorem parseDigit_digitChar (d : Nat) (h : d ≤ 9) :
    parseDigit (digitChar d) = some d := by
  interval_cases d <;> decide

/-- A two-digit field parses back to its value. -/
theorem parse2_pad2 (n : Nat) (h : n ≤ 99) (r : List Char) :
    parse2 (pad2 n ++ r) = some (n, r) := by
  have h1 : n / 10 ≤ 9 := by omega
  have h2 : n % 10 ≤ 9 := by omega
  simp [pad2, parse2, parseDigit_digitChar _ h1, parseDigit_digitChar _ h2]
  omega

/-- A two-digit field standing alone parses back to its value. -/
theorem parse2_pad2_nil (n : Nat) (h : n ≤ 99) :
    parse2 (pad2 n) = some (n, []) := by
  have := parse2_pad2 n h []
  simpa using this

/-- A four-digit field parses back to its value. -/
theorem parse4_pad4 (n : Nat) (h : n ≤ 9999) (r : List Char) :
    parse4 (pad4 n ++ r) = some (n, r) := by
  have h1 : n / 1000 ≤ 9 := by omega
  have h2 : n / 100 % 10 ≤ 9 := by omega
  have h3 : n / 10 % 10 ≤ 9 := by omega
  have h4 : n % 10 ≤ 9 := by omega
  simp [pad4, parse4, parseDigit_digitChar _ h1, parseDigit_digitChar _ h2,
    parseDigit_digitChar _ h3, parseDigit_digitChar _ h4]
  omega

/-- A layout character consumes itself. -/
theorem expectChar_self (c : Char) (r : List Char) :
    expectChar c (c :: r) = some r := by
  simp [expectChar]

/-- The fraction skipper passes through a list not starting with a
decimal point or a comma. -/
theorem parseFrac_not_sep (c : Char) (r : List Char)
    (h1 : c ≠ '.') (h2 : c ≠ ',') :
    parseFrac (c :: r) = some (c :: r) := by
  simp [parseFrac, h1, h2]

/-- The fraction skipper passes the zone suffix through unchanged. -/
theorem parseFrac_fmtZone (off : Int) :
    parseFrac (fmtZone off) = some (fmtZone off) := by
  unfold fmtZone
  by_cases h0 : off = 0
  · rw [if_pos h0]
    decide
  · rw [if_neg h0]
    by_cases hpos : 0 < off
    · rw [if_pos hpos]
      exact parseFrac_not_sep '+' _ (by decide) (by decide)
    · rw [if_neg hpos]
      exact parseFrac_not_sep '-' _ (by decide) (by decide)

/-- The zone suffix parses back to its offset. -/
theorem parseZone_fmtZone (off : Int) (h1 : -24 * 60 < off) (h2 : off < 24 * 60) :
    parseZone (fmtZone off) = some off := by
  by_cases h0 : off = 0
  · subst h0
    decide
  · unfold fmtZone
    rw [if_neg h0]
    have haa : off.natAbs < 24 * 60 := by omega
    have h60 : off.natAbs / 60 ≤ 99 := by omega
    have h60b : off.natAbs % 60 ≤ 99 := by omega
    unfold parseZone
    rw [if_neg (by simp [pad2])]
    simp only [parse2_pad2 _ h60, expectChar_self, parse2_pad2_nil _ h60b]
    have hc1 : off.natAbs / 60 ≤ 24 := by omega
    have hc2 : off.natAbs % 60 ≤ 60 := by omega
    by_cases hpos : 0 < off
    · rw [if_pos hpos]
      simp [-Int.natCast_natAbs, hc1, hc2]
      omega
    · rw [if_neg hpos]
      simp [-Int.natCast_natAbs, hc1, hc2]
      omega

/-- Every month has at most 31 days. -/
theorem daysInMonth_le (y m : Nat) : daysInMonth y m ≤ 31 := by
  unfold daysInMonth
  repeat' split
  all_goals omega

/-- Go `time.Parse(time.RFC3339, ...)` inverts `Format(time.RFC3339)`
on every valid time, so a formatted timestamp is always parseable. -/
theorem parseRFC3339_format (t : GoTime) (h : validTime t = true) :
    parseRFC3339 (formatRFC3339 t) = some t := by
  obtain ⟨y, mo, d, hh, mi, s, off⟩ := t
  have hb := h
  unfold validTime at hb
  simp only [Bool.and_eq_true, decide_eq_true_eq] at hb
  obtain ⟨⟨⟨⟨⟨⟨⟨⟨⟨hy, hmo1⟩, hmo2⟩, hd1⟩, hd2⟩, hhh⟩, hmi⟩, hs⟩, ho1⟩, ho2⟩ := hb
  have hd99 : d ≤ 99 := by
    have := daysInMonth_le y mo
    omega
  show parseRFC3339Chars (fmtChars ⟨y, mo, d, hh, mi, s, off⟩) =
    some ⟨y, mo, d, hh, mi, s, off⟩
  have hvdc : validDateClock y mo d hh mi s = true := by
    simp only [validDateClock, Bool.and_eq_true, decide_eq_true_eq]
    omega
  unfold fmtChars
  unfold parseRFC3339Chars
  simp only [parse4_pad4 y hy, expectChar_self,
    parse2_pad2 mo (by omega), parse2_pad2 d hd99,
    parse2_pad2 hh (by omega), parse2_pad2 mi (by omega),
    parse2_pad2 s (by omega), parseFrac_fmtZone,
    parseZone_fmtZone off ho1 ho2, hvdc, if_true]

/-- C8: in every run, the only config write the program can perform is
`lastUpdateCheck := Format(time.RFC3339)` of the current time, and on
any valid current time that rendering parses back under
`time.Parse(time.RFC3339, ...)` — so the stored value stays
RFC3339-parseable. -/
theorem c8_timestamp_always_rfc3339 (env : RunEnv) :
    (∀ k v, Event.configSet k v ∈ (run env).1 →
      k = "lastUpdateCheck" ∧ v = formatRFC3339 env.now) ∧
    (validTime env.now = true →
      parseRFC3339 (formatRFC3339 env.now) = some env.now) := by
  constructor
  · intro k v hmem
    have hInit : Event.configSet k v ∉ (initPhase env).1 :=
      configSet_not_mem_initPhase env k v
    have hApp : Event.configSet k v ∉ (appPhase env).1 :=
      configSet_not_mem_appPhase env k v
    have hUpd := updateBlock_configSet_value env k v
    unfold run at hmem
    rcases hI : initPhase env with ⟨e1, r1⟩
    rw [hI] at hmem hInit
    cases r1 with
    | some c =>
      simp at hmem hInit
      exact absurd hmem hInit
    | none =>
      rcases hU : updateBlock env with ⟨e2, r2⟩
      rw [hU] at hmem hUpd
      cases r2 with
      | some c =>
        simp at hmem hInit hUpd
        rcases hmem with hmem | hmem
        · exact absurd hmem hInit
        · exact hUpd hmem
      | none =>
        simp at hmem hInit hUpd
        rcases hmem with hmem | hmem | hmem
        · exact absurd hmem hInit
        · exact hUpd hmem
        · exact absurd hmem hApp
  · intro hval
    exact parseRFC3339_format env.now hval

/-- Witness for C8: the concrete stale run writes exactly the RFC3339
rendering of its current time, and that rendering parses back. -/
theorem c8_timestamp_always_rfc3339_witness :
    ("lastUpdateCheck" = "lastUpdateCheck" ∧
      "2025-06-07T08:09:10Z" = formatRFC3339 baseEnv.now) ∧
    parseRFC3339 (formatRFC3339 baseEnv.now) = some baseEnv.now :=
  ⟨(c8_timestamp_always_rfc3339 baseEnv).1 "lastUpdateCheck" "2025-06-07T08:09:10Z"
      (by decide),
   (c8_timestamp_always_rfc3339 baseEnv).2 (by decide)⟩

end Gotest
